import Mathlib

/-!
Verification of the citation formatting and validation engine
(`CitationCheckerTool` in `tools/research_tools.py`).

The engine is pure Python over dictionaries, lists and strings; it is
embedded here as total Lean functions over an explicit record type.
A Python exception raised while formatting is modelled as `Except.error`
carrying the exception's message.  The one wall-clock read
(`_get_month`, used only by the Chicago template) is modelled as an
explicit `month : String` parameter.
-/

/-- A citation record: a Python dict with optional keys `authors` (list of
strings), `title`, `year`, `journal`, `volume`, `issue`, `pages`, `doi`
(strings).  An absent key is modelled as `none`; the code reads every key
through `dict.get` with a default, embedded here as `Option.getD`. -/
structure CitationRecord where
  authors : Option (List String)
  title : Option String
  year : Option String
  journal : Option String
  volume : Option String
  issue : Option String
  pages : Option String
  doi : Option String
deriving DecidableEq

/-- Python's `str.upper()`: uppercase every character. -/
def py_upper (s : String) : String := ⟨s.data.map Char.toUpper⟩

/-- Python's `str.isdigit()`: true iff the string is non-empty and every
character is a digit (modelled over ASCII digits). -/
def py_isdigit (s : String) : Bool := !s.data.isEmpty && s.data.all Char.isDigit

/-- `CitationCheckerTool._format_authors_apa`.  The Python body checks
`len(authors) == 1`, then `len(authors) == 2`, and otherwise evaluates
`authors[0] + " et al."`; on an empty list that `authors[0]` raises
`IndexError("list index out of range")`, modelled as `Except.error`. -/
def format_authors_apa (authors : List String) : Except String String :=
  match authors with
  | [a] => Except.ok a
  | [a, b] => Except.ok (a ++ " & " ++ b)
  | [] => Except.error "list index out of range"
  | a :: _ :: _ :: _ => Except.ok (a ++ " et al.")

/-- `CitationCheckerTool._format_authors_mla`: at most three authors are
joined with `" and "`; otherwise `authors[0] + " et al."` (the index is
safe there, the list has at least four elements, so `headD` loses
nothing). -/
def format_authors_mla (authors : List String) : String :=
  if authors.length ≤ 3 then String.intercalate " and " authors
  else authors.headD "" ++ " et al."

/-- `CitationCheckerTool._format_authors_chicago`: at most three authors are
joined with `", "`; otherwise `authors[0] + " et al."`. -/
def format_authors_chicago (authors : List String) : String :=
  if authors.length ≤ 3 then String.intercalate ", " authors
  else authors.headD "" ++ " et al."

/-- `CitationCheckerTool._format_citation`.  Every field is read with
`citation.get(key, default)` (empty list / empty string), the style is
compared after `style.upper()`, and the selected f-string template is
filled in.  `doi` is read by the source but used by no template.  Only the
APA branch can raise (through `_format_authors_apa` on an empty author
list); the other branches always return a string. -/
def format_citation (month : String) (citation : CitationRecord) (style : String) :
    Except String String :=
  let authors := citation.authors.getD []
  let title := citation.title.getD ""
  let year := citation.year.getD ""
  let journal := citation.journal.getD ""
  let volume := citation.volume.getD ""
  let issue := citation.issue.getD ""
  let pages := citation.pages.getD ""
  if py_upper style = "APA" then
    (format_authors_apa authors).map (fun author_str =>
      s!"{author_str} ({year}). {title}. {journal}, {volume}({issue}), {pages}.")
  else if py_upper style = "MLA" then
    let author_str := format_authors_mla authors
    Except.ok s!"{author_str} \"{title}.\" {journal}, vol. {volume}, no. {issue}, {year}, pp. {pages}."
  else if py_upper style = "CHICAGO" then
    let author_str := format_authors_chicago authors
    Except.ok s!"{author_str} {year}. \"{title}.\" {journal} {volume}, no. {issue} ({month}): {pages}."
  else
    let author_str := String.intercalate ", " authors
    Except.ok s!"{author_str}. {title}. {journal}, {year}."

/-- Truthiness test `not citation.get(field)` used by the required-field
loop of `_validate_citation`: the field is missing when the key is absent
or its value is empty. -/
def field_missing (citation : CitationRecord) (field : String) : Bool :=
  if field = "authors" then (citation.authors.getD []).isEmpty
  else if field = "title" then citation.title.getD "" == ""
  else if field = "year" then citation.year.getD "" == ""
  else if field = "journal" then citation.journal.getD "" == ""
  else true

/-- The `required_fields` list of `_validate_citation`, in source order. -/
def required_fields : List String := ["authors", "title", "year", "journal"]

/-- Result shape of `_validate_citation`. -/
structure ValidationOutcome where
  valid : Bool
  issues : List String
  suggestions : List String
deriving DecidableEq

/-- `CitationCheckerTool._validate_citation`: one pass over
`required_fields` appending an issue/suggestion pair per missing field,
then the year-format check (`if year and not year.isdigit()`), then
`valid = (len(issues) == 0)`. -/
def validate_citation (citation : CitationRecord) : ValidationOutcome :=
  let pairs := required_fields.foldl
    (fun (acc : List String × List String) field =>
      if field_missing citation field then
        (acc.1 ++ [s!"Missing required field: {field}"],
         acc.2 ++ [s!"Please provide the {field}."])
      else acc)
    ([], [])
  let year := citation.year.getD ""
  let final :=
    if year ≠ "" ∧ py_isdigit year = false then
      (pairs.1 ++ ["Invalid year format"],
       pairs.2 ++ ["Please provide the year as a 4-digit number."])
    else pairs
  ⟨final.1.length == 0, final.1, final.2⟩

/-- One element of the `validation_results` list built by
`CitationCheckerTool._run`. -/
structure ValidationEntry where
  citation_id : Nat
  valid : Bool
  issues : List String
  suggestions : List String
deriving DecidableEq

/-- The dictionary returned by `CitationCheckerTool._run`, minus the
`timestamp` key (a wall-clock read with no claim about it). -/
structure BatchResult where
  style : String
  original_count : Nat
  formatted_citations : List String
  validation_results : List ValidationEntry
deriving DecidableEq

/-- The `for i, citation in enumerate(citations)` loop of `_run`, carrying
the running index.  In the `try` block the format result is computed
first; if it raises, neither list of the `try` is appended to and the
`except` branch appends only the error entry to `validation_results`
(`_validate_citation` itself is total, so only formatting can raise). -/
def run_loop (month style : String) : Nat → List CitationRecord → List String × List ValidationEntry
  | _, [] => ([], [])
  | i, citation :: rest =>
    let tail := run_loop month style (i + 1) rest
    match format_citation month citation style with
    | Except.ok formatted =>
      let validated := validate_citation citation
      (formatted :: tail.1,
       ⟨i, validated.valid, validated.issues, validated.suggestions⟩ :: tail.2)
    | Except.error e =>
      (tail.1, ⟨i, false, [e], []⟩ :: tail.2)

/-- `CitationCheckerTool._run` (the batch operation the spec calls
`format_and_validate_batch`). -/
def run_batch (month : String) (citations : List CitationRecord) (style : String) : BatchResult :=
  let out := run_loop month style 0 citations
  ⟨style, citations.length, out.1, out.2⟩

/-- The validation entry `_run` produces for the record at index `i`,
as a function of that record alone: the normal entry when formatting
succeeds, the error entry when it raises. -/
def per_record_entry (month style : String) (i : Nat) (citation : CitationRecord) :
    ValidationEntry :=
  match format_citation month citation style with
  | Except.ok _ =>
    let v := validate_citation citation
    ⟨i, v.valid, v.issues, v.suggestions⟩
  | Except.error e => ⟨i, false, [e], []⟩

/-- Spec-side description of the required-field issues, in the spec's
fixed field order. -/
def req_issues (c : CitationRecord) : List String :=
  (if c.authors.getD [] = [] then ["Missing required field: authors"] else [])
    ++ (if c.title.getD "" = "" then ["Missing required field: title"] else [])
    ++ (if c.year.getD "" = "" then ["Missing required field: year"] else [])
    ++ (if c.journal.getD "" = "" then ["Missing required field: journal"] else [])

/-- Spec-side description of the required-field suggestions, in the same
order as `req_issues`. -/
def req_suggestions (c : CitationRecord) : List String :=
  (if c.authors.getD [] = [] then ["Please provide the authors."] else [])
    ++ (if c.title.getD "" = "" then ["Please provide the title."] else [])
    ++ (if c.year.getD "" = "" then ["Please provide the year."] else [])
    ++ (if c.journal.getD "" = "" then ["Please provide the journal."] else [])

/-- Spec-side year-format issue: raised exactly when the year is non-empty
and not made of digits only. -/
def year_issues (c : CitationRecord) : List String :=
  if c.year.getD "" ≠ "" ∧ ¬ (c.year.getD "").data.all Char.isDigit then
    ["Invalid year format"]
  else []

/-- Spec-side year-format suggestion, paired with `year_issues`. -/
def year_suggestions (c : CitationRecord) : List String :=
  if c.year.getD "" ≠ "" ∧ ¬ (c.year.getD "").data.all Char.isDigit then
    ["Please provide the year as a 4-digit number."]
  else []

/-- The suggestion text paired with each issue text the validator can
emit. -/
def suggestion_for (issue : String) : String :=
  if issue = "Missing required field: authors" then "Please provide the authors."
  else if issue = "Missing required field: title" then "Please provide the title."
  else if issue = "Missing required field: year" then "Please provide the year."
  else if issue = "Missing required field: journal" then "Please provide the journal."
  else if issue = "Invalid year format" then "Please provide the year as a 4-digit number."
  else ""

/-- The literal record of the spec's literal scenario:
`{authors:["Doe, J."], title:"X", year:"2023", journal:"Y", volume:"4",
issue:"2", pages:"10-20"}`. -/
def doc_record : CitationRecord :=
  ⟨some ["Doe, J."], some "X", some "2023", some "Y", some "4", some "2", some "10-20", none⟩

/-- A string is the empty string exactly when its character list is empty. -/
lemma string_eq_empty_iff (s : String) : s = "" ↔ s.data = [] :=
  ⟨fun h => h ▸ rfl, fun h => String.ext h⟩

/-- Changing the style string without changing its uppercasing does not
change the formatted citation. -/
lemma format_citation_congr (month : String) (r : CitationRecord) {s t : String}
    (h : py_upper s = py_upper t) :
    format_citation month r s = format_citation month r t := by
  simp only [format_citation, h]

/-- C4: on the literal record, APA yields
`"Doe, J. (2023). X. Y, 4(2), 10-20."` and the unknown style yields the
fallback `"Doe, J.. X. Y, 2023."` with its double period; any casing of
`"APA"`, `"MLA"`, `"CHICAGO"` selects that template and any other string
selects the fallback template. -/
theorem format_citation_literal_and_dispatch (month : String) :
    format_citation month doc_record "APA" = Except.ok "Doe, J. (2023). X. Y, 4(2), 10-20."
    ∧ format_citation month doc_record "UNKNOWN" = Except.ok "Doe, J.. X. Y, 2023."
    ∧ ∀ (r : CitationRecord) (s : String),
        (py_upper s = "APA" → format_citation month r s = format_citation month r "APA")
        ∧ (py_upper s = "MLA" → format_citation month r s = format_citation month r "MLA")
        ∧ (py_upper s = "CHICAGO" → format_citation month r s = format_citation month r "CHICAGO")
        ∧ (py_upper s ≠ "APA" → py_upper s ≠ "MLA" → py_upper s ≠ "CHICAGO" →
            format_citation month r s = format_citation month r "UNKNOWN") := by
  refine ⟨rfl, rfl, fun r s => ⟨?_, ?_, ?_, ?_⟩⟩
  · intro h
    exact format_citation_congr month r h
  · intro h
    exact format_citation_congr month r h
  · intro h
    exact format_citation_congr month r h
  · intro h1 h2 h3
    simp only [format_citation]
    rw [if_neg h1, if_neg h2, if_neg h3]
    rfl

/-- C4 witness: the theorem applied with the lowercase style `"apa"`, a
mixed-case `"Chicago"`, and the non-matching style `"Harvard"`. -/
theorem format_citation_literal_and_dispatch_witness :
    format_citation "May" doc_record "apa" = format_citation "May" doc_record "APA"
    ∧ format_citation "May" doc_record "Chicago" = format_citation "May" doc_record "CHICAGO"
    ∧ format_citation "May" doc_record "Harvard" = format_citation "May" doc_record "UNKNOWN" :=
  ⟨((format_citation_literal_and_dispatch "May").2.2 doc_record "apa").1 (by decide),
   ((format_citation_literal_and_dispatch "May").2.2 doc_record "Chicago").2.2.1 (by decide),
   ((format_citation_literal_and_dispatch "May").2.2 doc_record "Harvard").2.2.2
     (by decide) (by decide) (by decide)⟩

/-- C5: APA author collapsing maps a one-element list to the author's
name, a two-element list to `"A & B"`, and any list of three or more
authors to `"first et al."`. -/
theorem apa_author_collapsing (a b c : String) (rest : List String) :
    format_authors_apa [a] = Except.ok a
    ∧ format_authors_apa [a, b] = Except.ok (a ++ " & " ++ b)
    ∧ format_authors_apa (a :: b :: c :: rest) = Except.ok (a ++ " et al.") :=
  ⟨rfl, rfl, rfl⟩

/-- C6: MLA joins at most three authors with `" and "` and collapses four
or more to `"first et al."`; Chicago joins at most three authors with
`", "` and collapses four or more to `"first et al."`. -/
theorem mla_chicago_author_collapsing (a b c d : String) (rest : List String) :
    format_authors_mla [] = ""
    ∧ format_authors_mla [a] = a
    ∧ format_authors_mla [a, b] = a ++ " and " ++ b
    ∧ format_authors_mla [a, b, c] = a ++ " and " ++ b ++ " and " ++ c
    ∧ format_authors_mla (a :: b :: c :: d :: rest) = a ++ " et al."
    ∧ format_authors_chicago [] = ""
    ∧ format_authors_chicago [a] = a
    ∧ format_authors_chicago [a, b] = a ++ ", " ++ b
    ∧ format_authors_chicago [a, b, c] = a ++ ", " ++ b ++ ", " ++ c
    ∧ format_authors_chicago (a :: b :: c :: d :: rest) = a ++ " et al." := by
  have hlen : ¬ (a :: b :: c :: d :: rest).length ≤ 3 := by
    simp only [List.length_cons]
    omega
  refine ⟨rfl, rfl, rfl, rfl, ?_, rfl, rfl, rfl, rfl, ?_⟩
  · simp only [format_authors_mla]
    rw [if_neg hlen]
    rfl
  · simp only [format_authors_chicago]
    rw [if_neg hlen]
    rfl

lemma toString_string (s : String) : toString s = s := rfl

lemma validate_citation_eq (c : CitationRecord) :
    validate_citation c =
      ⟨(req_issues c ++ year_issues c).length == 0,
       req_issues c ++ year_issues c,
       req_suggestions c ++ year_suggestions c⟩ := by
  by_cases h1 : c.authors.getD [] = [] <;>
  by_cases h2 : c.title.getD "" = "" <;>
  by_cases h3 : c.year.getD "" = "" <;>
  by_cases h4 : c.journal.getD "" = "" <;>
  by_cases h5 : (c.year.getD "").data.all Char.isDigit <;>
  simp_all [validate_citation, required_fields, field_missing, req_issues, req_suggestions,
    year_issues, year_suggestions, py_isdigit, List.isEmpty_iff, string_eq_empty_iff,
    toString_string] <;>
  rw [if_neg (by simpa using h5)] <;>
  simp

lemma req_issues_count_invalid (c : CitationRecord) :
    (req_issues c).count "Invalid year format" = 0 := by
  unfold req_issues
  split_ifs <;> decide

lemma req_suggestions_count_year4 (c : CitationRecord) :
    (req_suggestions c).count "Please provide the year as a 4-digit number." = 0 := by
  unfold req_suggestions
  split_ifs <;> decide

lemma req_issues_mem_year (c : CitationRecord) :
    "Missing required field: year" ∈ req_issues c ↔ c.year.getD "" = "" := by
  unfold req_issues
  split_ifs <;> simp_all

/-- C7: the validator reports, in the fixed order authors, title, year,
journal, one missing-field issue and its suggestion per empty or absent
required field, and the verdict is valid exactly when the final issue
list is empty. -/
theorem validate_required_fields_and_valid (c : CitationRecord) :
    (validate_citation c).issues
        = (if c.authors.getD [] = [] then ["Missing required field: authors"] else [])
          ++ (if c.title.getD "" = "" then ["Missing required field: title"] else [])
          ++ (if c.year.getD "" = "" then ["Missing required field: year"] else [])
          ++ (if c.journal.getD "" = "" then ["Missing required field: journal"] else [])
          ++ year_issues c
    ∧ (validate_citation c).suggestions
        = (if c.authors.getD [] = [] then ["Please provide the authors."] else [])
          ++ (if c.title.getD "" = "" then ["Please provide the title."] else [])
          ++ (if c.year.getD "" = "" then ["Please provide the year."] else [])
          ++ (if c.journal.getD "" = "" then ["Please provide the journal."] else [])
          ++ year_suggestions c
    ∧ ((validate_citation c).valid = true ↔ (validate_citation c).issues = []) := by
  rw [validate_citation_eq]
  refine ⟨by simp [req_issues], by simp [req_suggestions], by simp [List.length_eq_zero]⟩

/-- C8: a non-empty year with a non-digit character yields exactly one
`"Invalid year format"` issue with its suggestion, whatever the year's
length; an empty year yields no format issue but the missing-field issue;
an all-digit year of any length yields no year-related issue at all. -/
theorem validate_year_check (c : CitationRecord) :
    (c.year.getD "" ≠ "" → (∃ ch ∈ (c.year.getD "").data, ch.isDigit = false) →
        (validate_citation c).issues.count "Invalid year format" = 1
        ∧ (validate_citation c).suggestions.count "Please provide the year as a 4-digit number." = 1)
    ∧ (c.year.getD "" = "" →
        (validate_citation c).issues.count "Invalid year format" = 0
        ∧ "Missing required field: year" ∈ (validate_citation c).issues)
    ∧ (c.year.getD "" ≠ "" → (c.year.getD "").data.all Char.isDigit →
        (validate_citation c).issues.count "Invalid year format" = 0
        ∧ "Missing required field: year" ∉ (validate_citation c).issues) := by
  rw [validate_citation_eq]
  refine ⟨?_, ?_, ?_⟩
  · intro hy hex
    have hall : (c.year.getD "").data.all Char.isDigit = false := by
      obtain ⟨ch, hmem, hf⟩ := hex
      exact List.all_eq_false.2 ⟨ch, hmem, by simp [hf]⟩
    have hyi : year_issues c = ["Invalid year format"] := by
      simp [year_issues, hy, hall]
    have hys : year_suggestions c = ["Please provide the year as a 4-digit number."] := by
      simp [year_suggestions, hy, hall]
    constructor
    · simp [List.count_append, req_issues_count_invalid, hyi]
    · simp [List.count_append, req_suggestions_count_year4, hys]
  · intro hy
    have hyi : year_issues c = [] := by simp [year_issues, hy]
    constructor
    · simp [List.count_append, req_issues_count_invalid, hyi]
    · exact List.mem_append_left _ ((req_issues_mem_year c).2 hy)
  · intro hy hall
    have hyi : year_issues c = [] := by simp [year_issues, hall]
    constructor
    · simp [List.count_append, req_issues_count_invalid, hyi]
    · intro hmem
      rw [hyi, List.append_nil] at hmem
      exact hy ((req_issues_mem_year c).1 hmem)

/-- C8 witness: the theorem applied to records with year `"20a3"`, year
absent, and the five-digit all-digit year `"12345"`. -/
theorem validate_year_check_witness :
    (validate_citation ⟨some ["A"], some "T", some "20a3", some "J", none, none, none, none⟩).issues.count
        "Invalid year format" = 1
    ∧ (validate_citation ⟨some ["A"], some "T", none, some "J", none, none, none, none⟩).issues.count
        "Invalid year format" = 0
    ∧ (validate_citation ⟨some ["A"], some "T", some "12345", some "J", none, none, none, none⟩).issues.count
        "Invalid year format" = 0 :=
  ⟨((validate_year_check _).1 (by decide) ⟨'a', by decide, by decide⟩).1,
   ((validate_year_check _).2.1 (by decide)).1,
   ((validate_year_check _).2.2 (by decide) (by decide)).1⟩

/-- C9: the validator's suggestion list is the issue list mapped through
the fixed issue-to-suggestion pairing, so both lists always have the same
length with the suggestion at each position answering the issue at that
position. -/
theorem validate_pairing (c : CitationRecord) :
    (validate_citation c).suggestions = (validate_citation c).issues.map suggestion_for
    ∧ (validate_citation c).issues.length = (validate_citation c).suggestions.length := by
  rw [validate_citation_eq]
  constructor
  · unfold req_issues req_suggestions year_issues year_suggestions
    split_ifs <;> simp [suggestion_for]
  · unfold req_issues req_suggestions year_issues year_suggestions
    split_ifs <;> simp

lemma run_loop_cons_ok (month style : String) (i : Nat) (citation : CitationRecord)
    (rest : List CitationRecord) (formatted : String)
    (h : format_citation month citation style = Except.ok formatted) :
    run_loop month style i (citation :: rest)
      = (formatted :: (run_loop month style (i + 1) rest).1,
         ⟨i, (validate_citation citation).valid, (validate_citation citation).issues,
          (validate_citation citation).suggestions⟩ :: (run_loop month style (i + 1) rest).2) := by
  simp only [run_loop]
  rw [h]

lemma run_loop_cons_error (month style : String) (i : Nat) (citation : CitationRecord)
    (rest : List CitationRecord) (e : String)
    (h : format_citation month citation style = Except.error e) :
    run_loop month style i (citation :: rest)
      = ((run_loop month style (i + 1) rest).1,
         ⟨i, false, [e], []⟩ :: (run_loop month style (i + 1) rest).2) := by
  simp only [run_loop]
  rw [h]

lemma per_record_entry_ok (month style : String) (i : Nat) (c : CitationRecord)
    (formatted : String) (h : format_citation month c style = Except.ok formatted) :
    per_record_entry month style i c
      = ⟨i, (validate_citation c).valid, (validate_citation c).issues,
         (validate_citation c).suggestions⟩ := by
  unfold per_record_entry
  rw [h]

lemma per_record_entry_error (month style : String) (i : Nat) (c : CitationRecord)
    (e : String) (h : format_citation month c style = Except.error e) :
    per_record_entry month style i c = ⟨i, false, [e], []⟩ := by
  unfold per_record_entry
  rw [h]

lemma run_loop_snd_length (month style : String) (cs : List CitationRecord) (k : Nat) :
    (run_loop month style k cs).2.length = cs.length := by
  induction cs generalizing k with
  | nil => rfl
  | cons hd tl ih =>
    cases hfc : format_citation month hd style with
    | ok f =>
      rw [run_loop_cons_ok month style k hd tl f hfc]
      simp [ih]
    | error e =>
      rw [run_loop_cons_error month style k hd tl e hfc]
      simp [ih]

lemma run_loop_snd_get (month style : String) (cs : List CitationRecord) :
    ∀ (k i : Nat) (c : CitationRecord), cs[i]? = some c →
      (run_loop month style k cs).2[i]? = some (per_record_entry month style (k + i) c) := by
  induction cs with
  | nil =>
    intro k i c h
    simp at h
  | cons hd tl ih =>
    intro k i c h
    cases i with
    | zero =>
      simp only [List.getElem?_cons_zero, Option.some.injEq] at h
      subst h
      cases hfc : format_citation month hd style with
      | ok f =>
        rw [run_loop_cons_ok month style k hd tl f hfc,
          per_record_entry_ok month style (k + 0) hd f hfc]
        simp
      | error e =>
        rw [run_loop_cons_error month style k hd tl e hfc,
          per_record_entry_error month style (k + 0) hd e hfc]
        simp
    | succ n =>
      simp only [List.getElem?_cons_succ] at h
      have hih := ih (k + 1) n c h
      have harith : k + (n + 1) = k + 1 + n := by omega
      rw [harith]
      cases hfc : format_citation month hd style with
      | ok f =>
        rw [run_loop_cons_ok month style k hd tl f hfc]
        simpa using hih
      | error e =>
        rw [run_loop_cons_error month style k hd tl e hfc]
        simpa using hih

lemma run_loop_fst (month style : String) (cs : List CitationRecord) (k : Nat) :
    (run_loop month style k cs).1
      = cs.filterMap (fun c => (format_citation month c style).toOption) := by
  induction cs generalizing k with
  | nil => rfl
  | cons hd tl ih =>
    cases hfc : format_citation month hd style with
    | ok f =>
      rw [run_loop_cons_ok month style k hd tl f hfc]
      simp [List.filterMap_cons, hfc, Except.toOption, ih]
    | error e =>
      rw [run_loop_cons_error month style k hd tl e hfc]
      simp [List.filterMap_cons, hfc, Except.toOption, ih]

lemma length_filterMap_of_ok (month style : String) :
    ∀ cs : List CitationRecord, (∀ c ∈ cs, (format_citation month c style).isOk = true) →
      (cs.filterMap (fun c => (format_citation month c style).toOption)).length = cs.length := by
  intro cs
  induction cs with
  | nil => intro _; rfl
  | cons hd tl ih =>
    intro h
    have hhd := h hd (List.mem_cons_self hd tl)
    cases hfc : format_citation month hd style with
    | ok s =>
      have hstep : (format_citation month hd style).toOption = some s := by
        rw [hfc]
        rfl
      simp only [List.filterMap_cons, hstep, List.length_cons]
      rw [ih (fun c hc => h c (List.mem_cons_of_mem _ hc))]
    | error e =>
      rw [hfc] at hhd
      simp [Except.isOk, Except.toBool] at hhd

lemma per_record_entry_id (month style : String) (i : Nat) (c : CitationRecord) :
    (per_record_entry month style i c).citation_id = i := by
  unfold per_record_entry
  cases format_citation month c style <;> rfl

/-- C2 counterexample: a one-record batch whose only record has an empty
author list, formatted as APA, yields zero formatted strings for one
input record — not "exactly N formatted strings". -/
theorem batch_alignment_counterexample :
    ([(⟨some [], some "X", some "2023", some "Y", none, none, none, none⟩ : CitationRecord)].length = 1)
    ∧ (run_batch "May" [⟨some [], some "X", some "2023", some "Y", none, none, none, none⟩]
        "APA").formatted_citations.length = 0
    ∧ (run_batch "May" [⟨some [], some "X", some "2023", some "Y", none, none, none, none⟩]
        "APA").validation_results.length = 1 :=
  ⟨rfl, rfl, rfl⟩

/-- C2 (amended): a batch of N records always yields exactly N validation
results, the result at position i a function of the record at position i
alone; the formatted strings are, in input order, exactly the successful
formats, hence exactly N strings whenever no record's formatting raises. -/
theorem batch_alignment (month : String) (citations : List CitationRecord) (style : String) :
    (run_batch month citations style).validation_results.length = citations.length
    ∧ (∀ (i : Nat) (c : CitationRecord), citations[i]? = some c →
        (run_batch month citations style).validation_results[i]?
          = some (per_record_entry month style i c))
    ∧ (run_batch month citations style).formatted_citations
        = citations.filterMap (fun c => (format_citation month c style).toOption)
    ∧ ((∀ c ∈ citations, (format_citation month c style).isOk = true) →
        (run_batch month citations style).formatted_citations.length = citations.length) := by
  refine ⟨run_loop_snd_length month style citations 0, ?_, run_loop_fst month style citations 0, ?_⟩
  · intro i c h
    have hg := run_loop_snd_get month style citations 0 i c h
    simpa using hg
  · intro h
    have hf : (run_batch month citations style).formatted_citations
        = citations.filterMap (fun c => (format_citation month c style).toOption) :=
      run_loop_fst month style citations 0
    rw [hf]
    exact length_filterMap_of_ok month style citations h

/-- C2 witness: the amended theorem applied to a concrete one-record
batch whose formatting succeeds. -/
theorem batch_alignment_witness :
    (run_batch "May" [doc_record] "MLA").validation_results[0]?
      = some (per_record_entry "May" "MLA" 0 doc_record)
    ∧ (run_batch "May" [doc_record] "MLA").formatted_citations.length = 1 :=
  ⟨(batch_alignment "May" [doc_record] "MLA").2.1 0 doc_record rfl,
   (batch_alignment "May" [doc_record] "MLA").2.2.2 (by decide)⟩

/-- C3: when formatting the record at index i raises, its validation
entry reports valid = false with the error description as sole issue and
no suggestions, and every later record is still validated normally and,
when its formatting succeeds, still contributes its formatted string. -/
theorem batch_fault_isolation (month style : String) (citations : List CitationRecord)
    (i : Nat) (c : CitationRecord) (e : String)
    (hget : citations[i]? = some c)
    (herr : format_citation month c style = Except.error e) :
    (run_batch month citations style).validation_results[i]? = some ⟨i, false, [e], []⟩
    ∧ (∀ (j : Nat) (cj : CitationRecord), i < j → citations[j]? = some cj →
        (run_batch month citations style).validation_results[j]?
          = some (per_record_entry month style j cj))
    ∧ (∀ (j : Nat) (cj : CitationRecord) (s : String), i < j → citations[j]? = some cj →
        format_citation month cj style = Except.ok s →
        s ∈ (run_batch month citations style).formatted_citations) := by
  refine ⟨?_, ?_, ?_⟩
  · have hg := run_loop_snd_get month style citations 0 i c hget
    rw [per_record_entry_error month style (0 + i) c e herr] at hg
    simpa using hg
  · intro j cj _ hj
    have hg := run_loop_snd_get month style citations 0 j cj hj
    simpa using hg
  · intro j cj s _ hj hok
    have hf : (run_batch month citations style).formatted_citations
        = citations.filterMap (fun c => (format_citation month c style).toOption) :=
      run_loop_fst month style citations 0
    rw [hf]
    refine List.mem_filterMap.2 ⟨cj, ?_, by rw [hok]; rfl⟩
    rw [List.getElem?_eq_some] at hj
    obtain ⟨hlt, he⟩ := hj
    exact he ▸ List.getElem_mem hlt

/-- C3 witness: in a three-record APA batch whose middle record has an
empty author list, record 1 gets the error entry while records 0 and 2
are still processed. -/
theorem batch_fault_isolation_witness :
    (run_batch "May" [⟨some ["Smith"], some "T0", some "2020", some "J0", none, none, none, none⟩,
       ⟨some [], some "X", some "2023", some "Y", none, none, none, none⟩,
       ⟨some ["Lee"], some "T2", some "2021", some "J2", none, none, none, none⟩]
       "APA").validation_results[1]? = some ⟨1, false, ["list index out of range"], []⟩
    ∧ (run_batch "May" [⟨some ["Smith"], some "T0", some "2020", some "J0", none, none, none, none⟩,
       ⟨some [], some "X", some "2023", some "Y", none, none, none, none⟩,
       ⟨some ["Lee"], some "T2", some "2021", some "J2", none, none, none, none⟩]
       "APA").validation_results[2]?
      = some (per_record_entry "May" "APA" 2
          ⟨some ["Lee"], some "T2", some "2021", some "J2", none, none, none, none⟩) :=
  ⟨(batch_fault_isolation "May" "APA" _ 1
      ⟨some [], some "X", some "2023", some "Y", none, none, none, none⟩
      "list index out of range" rfl rfl).1,
   (batch_fault_isolation "May" "APA" _ 1
      ⟨some [], some "X", some "2023", some "Y", none, none, none, none⟩
      "list index out of range" rfl rfl).2.1 2
      ⟨some ["Lee"], some "T2", some "2021", some "J2", none, none, none, none⟩
      (by decide) rfl⟩

/-- C10: the batch result records the input length as original_count and
every validation entry carries its own zero-based input index as
citation_id, error entries included. -/
theorem batch_ids_and_count (month : String) (citations : List CitationRecord) (style : String) :
    (run_batch month citations style).original_count = citations.length
    ∧ (∀ (i : Nat) (entry : ValidationEntry),
        (run_batch month citations style).validation_results[i]? = some entry →
        entry.citation_id = i) := by
  refine ⟨rfl, ?_⟩
  intro i entry h
  have hlen : (run_batch month citations style).validation_results.length = citations.length :=
    run_loop_snd_length month style citations 0
  have hi : i < citations.length := by
    rw [List.getElem?_eq_some] at h
    obtain ⟨hlt, _⟩ := h
    rw [hlen] at hlt
    exact hlt
  obtain ⟨ci, hci⟩ : ∃ ci, citations[i]? = some ci :=
    ⟨citations.get ⟨i, hi⟩, by rw [List.getElem?_eq_some]; exact ⟨hi, rfl⟩⟩
  have hg := run_loop_snd_get month style citations 0 i ci hci
  have h2 : (run_loop month style 0 citations).2[i]? = some entry := h
  rw [h2, Option.some.injEq] at hg
  rw [hg]
  simpa using per_record_entry_id month style (0 + i) ci

/-- C10 witness: the theorem applied to a concrete one-record batch. -/
theorem batch_ids_and_count_witness :
    (run_batch "May" [doc_record] "APA").original_count = 1
    ∧ (⟨0, true, [], []⟩ : ValidationEntry).citation_id = 0 :=
  ⟨(batch_ids_and_count "May" [doc_record] "APA").1,
   (batch_ids_and_count "May" [doc_record] "APA").2 0 ⟨0, true, [], []⟩ rfl⟩

/-- C1 counterexample: formatting a record with every field absent in APA
style raises (modelled as an error result) instead of returning a
formatted string. -/
theorem format_raises_counterexample :
    format_citation "May" ⟨none, none, none, none, none, none, none, none⟩ "APA"
      = Except.error "list index out of range" := rfl

/-- C1 (amended): formatting never raises and returns an assembled string
with empty-string substitution for absent fields, except in exactly one
case: a style whose uppercasing is APA together with an empty or absent
author list, where the author formatter evaluates `authors[0]` and raises
`IndexError("list index out of range")`. -/
theorem format_raises_iff_apa_empty_authors (month : String) (c : CitationRecord) (style : String) :
    (py_upper style = "APA" ∧ c.authors.getD [] = [] →
        format_citation month c style = Except.error "list index out of range")
    ∧ (¬(py_upper style = "APA" ∧ c.authors.getD [] = []) →
        ∃ s, format_citation month c style = Except.ok s) := by
  constructor
  · rintro ⟨hs, ha⟩
    simp [format_citation, hs, ha, format_authors_apa, Except.map]
  · intro h
    by_cases hs : py_upper style = "APA"
    · have ha : c.authors.getD [] ≠ [] := fun hnil => h ⟨hs, hnil⟩
      rcases halist : c.authors.getD [] with _ | ⟨a, _ | ⟨b, _ | ⟨d, rest⟩⟩⟩
      · exact absurd halist ha
      · exact ⟨_, by simp [format_citation, hs, halist, format_authors_apa, Except.map]; rfl⟩
      · exact ⟨_, by simp [format_citation, hs, halist, format_authors_apa, Except.map]; rfl⟩
      · exact ⟨_, by simp [format_citation, hs, halist, format_authors_apa, Except.map]; rfl⟩
    · by_cases hm : py_upper style = "MLA"
      · exact ⟨_, by simp [format_citation, hs, hm]; rfl⟩
      · by_cases hc : py_upper style = "CHICAGO"
        · exact ⟨_, by simp [format_citation, hs, hm, hc]; rfl⟩
        · exact ⟨_, by simp [format_citation, hs, hm, hc]; rfl⟩

/-- C1 witness: the amended theorem applied to the empty record under APA
and to the literal record under lowercase MLA. -/
theorem format_raises_iff_apa_empty_authors_witness :
    format_citation "May" ⟨some [], some "X", some "2023", some "Y", none, none, none, none⟩ "APA"
      = Except.error "list index out of range"
    ∧ ∃ s, format_citation "May" doc_record "mla" = Except.ok s :=
  ⟨(format_raises_iff_apa_empty_authors "May"
      ⟨some [], some "X", some "2023", some "Y", none, none, none, none⟩ "APA").1 (by decide),
   (format_raises_iff_apa_empty_authors "May" doc_record "mla").2 (by decide)⟩
